import Mathlib

/-!
Verification development for the PDF-DATA-EXTRACTION repository.

The repository contains three near-duplicate Python modules (OCR8.py,
ocr9.py, OCR9.py), each defining a `PDFExtractor` class that walks the
pages of a PDF, extracts text with pdfplumber, falls back to Tesseract
OCR on pages with no structured text, and serializes the per-page
results.  The external backends (pdfplumber, pytesseract) are modelled
as oracles attached to each page: every outcome an external call can
have (a returned value, a raised exception, the Tesseract-missing
error) is a constructor, and the repository's own control flow is
translated faithfully on top of them.  `print` output is modelled as an
explicit log (a `List String`) returned alongside each result, in the
order the source prints.  Coordinates are modelled as integers
(the OCR branch uses `int(...)` in the source; pdfplumber floats are
idealized), and OCR confidences as rationals (the source converts them
with `float(...)`).
-/

/-- Outcome of the OCR path of `_extract_with_ocr`
(`page.to_image(...)` followed by `pytesseract.image_to_string`):
either a returned string, the `TesseractNotFoundError`, or any other
exception with its message. -/
inductive OcrOutcome where
  | ok (text : String)
  | tesseractNotFound
  | err (msg : String)
deriving Repr

/-- One word returned by pdfplumber's `page.extract_words`:
text plus the bounding-box fields the source reads
(`x0`, `x1`, `top`, `bottom`). -/
structure Word where
  text : String
  x0 : Int
  x1 : Int
  top : Int
  bottom : Int
deriving Repr, DecidableEq

/-- One row of `pytesseract.image_to_data(..., output_type=Output.DICT)`:
the fields the source reads (`text`, `conf`, `left`, `top`, `width`,
`height`).  `conf` is a rational; the sentinel value `-1` corresponds to
the string `'-1'` the source compares against. -/
structure OcrWord where
  text : String
  conf : Rat
  left : Int
  top : Int
  width : Int
  height : Int
deriving Repr, DecidableEq

/-- A pdfplumber page together with the oracle outcomes of every
external call the source can make on it:
`plumberText` models `page.extract_text(x_tolerance=1, y_tolerance=1,
layout=True)` (which returns an optional string or raises),
`ocrText` models `page.to_image(...)` + `image_to_string`,
`words` models `page.extract_words(x_tolerance=1, y_tolerance=1)`,
and `ocrData` models `page.to_image(...)` + `image_to_data`
(each of the last two may raise, caught only by the caller's
document-level handler in `extract_elements_for_html`). -/
structure Page where
  page_number : Nat
  plumberText : Except String (Option String)
  ocrText : OcrOutcome
  words : Except String (List Word)
  ocrData : Except String (List OcrWord)
deriving Repr

/-- Outcome of `pdfplumber.open(self.pdf_path)`: an opened document
(its page list), a `FileNotFoundError`, or any other exception. -/
inductive PdfOpenResult where
  | ok (pages : List Page)
  | fileNotFound
  | otherError (msg : String)
deriving Repr

/-- A positioned text element as built by `extract_elements_for_html`:
the dict `{'text': ..., 'x0': ..., 'y0': ..., 'x1': ..., 'y1': ...,
'source': ...}`. -/
structure Element where
  text : String
  x0 : Int
  y0 : Int
  x1 : Int
  y1 : Int
  source : String
deriving Repr, DecidableEq

namespace PDFExtractor

/-- Python `text if text else ""` applied to the optional string
returned by `page.extract_text`: `None` and the empty string both
become `""`. -/
def truthyOrEmpty (text : Option String) : String :=
  match text with
  | some t => if t = "" then "" else t
  | none => ""

/-- `PDFExtractor._extract_with_plumber` (identical in all three
files): extract text with layout; on any exception print an error line
and return `""`.  Returns the extracted text and the printed log. -/
def _extract_with_plumber (page : Page) : String × List String :=
  match page.plumberText with
  | .ok text => (truthyOrEmpty text, [])
  | .error e =>
      ("", ["Error extracting with pdfplumber on page "
            ++ toString page.page_number ++ ": " ++ e])

/-- `PDFExtractor._extract_with_ocr` (identical in all three files):
rasterize the page and run Tesseract; `TesseractNotFoundError` and any
other exception are caught, printed, and degrade to `""`. -/
def _extract_with_ocr (page : Page) : String × List String :=
  match page.ocrText with
  | .ok text => (if text = "" then "" else text, [])
  | .tesseractNotFound =>
      ("", ["Tesseract is not installed or not in your PATH. Please install it."])
  | .err e =>
      ("", ["Error extracting with OCR on page "
            ++ toString page.page_number ++ ": " ++ e])

/-- The body of the page loop of `extract_data` /
`extract_data_layout_preserved`: try pdfplumber first; if the result is
truthy record it, otherwise record the OCR result.  The `Bool`
component is instrumentation recording whether the OCR engine was
invoked for this page (i.e. whether the `else` branch was entered);
the final component is the printed log. -/
def dispatchPage (page : Page) : String × Bool × List String :=
  if (_extract_with_plumber page).1 ≠ "" then
    ((_extract_with_plumber page).1, false, (_extract_with_plumber page).2)
  else
    ((_extract_with_ocr page).1, true,
      (_extract_with_plumber page).2 ++ (_extract_with_ocr page).2)

/-- The `for page in pdf.pages` loop of `extract_data` /
`extract_data_layout_preserved`: accumulates
`extracted_data[page.page_number] = ...` in document order
(a Python dict with distinct pdfplumber page numbers is an ordered
association list) together with the printed log. -/
def extractLoop : List Page → List (Nat × String) × List String
  | [] => ([], [])
  | page :: rest =>
      ((page.page_number, (dispatchPage page).1) :: (extractLoop rest).1,
        (dispatchPage page).2.2 ++ (extractLoop rest).2)

/-- `PDFExtractor.extract_data` (OCR8.py): open the PDF and run the
page loop; `FileNotFoundError` and any other exception are caught,
printed, and degrade to the empty dict. -/
def extract_data (pdf_path : String) (pdf : PdfOpenResult) :
    List (Nat × String) × List String :=
  match pdf with
  | .ok pages =>
      ((extractLoop pages).1,
        (extractLoop pages).2 ++ ["PDF extraction completed successfully!"])
  | .fileNotFound =>
      ([], ["Error: The file at " ++ pdf_path ++ " was not found."])
  | .otherError e =>
      ([], ["An unexpected error occurred: " ++ e])

/-- `PDFExtractor.extract_data_layout_preserved` (ocr9.py / OCR9.py):
textually identical page loop and handlers (ocr9.py only appends an
emoji to the success message, kept here in OCR9.py's plain form). -/
def extract_data_layout_preserved (pdf_path : String) (pdf : PdfOpenResult) :
    List (Nat × String) × List String :=
  match pdf with
  | .ok pages =>
      ((extractLoop pages).1,
        (extractLoop pages).2 ++ ["PDF extraction completed successfully!"])
  | .fileNotFound =>
      ([], ["Error: The file at " ++ pdf_path ++ " was not found."])
  | .otherError e =>
      ([], ["An unexpected error occurred: " ++ e])

/-- An element built from a pdfplumber word in
`extract_elements_for_html`:
`{'text': word['text'], 'x0': word['x0'], 'y0': word['top'],
'x1': word['x1'], 'y1': word['bottom'], 'source': 'plumber'}`. -/
def wordElement (word : Word) : Element :=
  ⟨word.text, word.x0, word.top, word.x1, word.bottom, "plumber"⟩

/-- Python `str.strip()`: drop leading and trailing whitespace
(modelled with `Char.isWhitespace`; defined structurally on the
character list so that it evaluates in the kernel). -/
def pyStrip (s : String) : String :=
  String.mk
    (((s.toList.dropWhile Char.isWhitespace).reverse.dropWhile
        Char.isWhitespace).reverse)

/-- The OCR fallback loop of `extract_elements_for_html`: for each row
of `image_to_data`, strip the text, read the confidence (`float(...)`
unless the raw value is `'-1'`, in which case `0`), and keep the row
when the stripped text is truthy and the confidence exceeds 50,
recording the bounding box `(x, y, x+w, y+h)` with source `'ocr'`. -/
def ocrElements (rows : List OcrWord) : List Element :=
  rows.filterMap (fun row =>
    let text := pyStrip row.text
    let conf := if row.conf ≠ -1 then row.conf else 0
    if text ≠ "" ∧ conf > 50 then
      some ⟨text, row.left, row.top,
            row.left + row.width, row.top + row.height, "ocr"⟩
    else none)

/-- The per-page body of `extract_elements_for_html`: try
`extract_words` first; when it yields a non-empty list build plumber
elements, otherwise run the OCR fallback.  Exceptions raised by the
external calls are NOT caught per page in the source — they propagate
to the document-level handler — hence the `Except`. -/
def pageElements (page : Page) : Except String (List Element) :=
  match page.words with
  | .error e => .error e
  | .ok words =>
      if words ≠ [] then .ok (words.map wordElement)
      else
        match page.ocrData with
        | .error e => .error e
        | .ok rows => .ok (ocrElements rows)

/-- The `for page in pdf.pages` loop of `extract_elements_for_html`:
accumulates `extracted_elements[page.page_number] = elements`; the
first per-page exception aborts the loop. -/
def elementsLoop : List Page → Except String (List (Nat × List Element))
  | [] => .ok []
  | page :: rest =>
      match pageElements page with
      | .error e => .error e
      | .ok elems =>
          match elementsLoop rest with
          | .error e => .error e
          | .ok restData => .ok ((page.page_number, elems) :: restData)

/-- `PDFExtractor.extract_elements_for_html` (ocr9.py / OCR9.py):
open the PDF, run the element loop; `FileNotFoundError` and any other
exception (including per-page OCR failures) are caught, printed, and
degrade to the empty dict. -/
def extract_elements_for_html (pdf_path : String) (pdf : PdfOpenResult) :
    List (Nat × List Element) × List String :=
  match pdf with
  | .ok pages =>
      match elementsLoop pages with
      | .ok data => (data, [])
      | .error e => ([], ["An unexpected error occurred: " ++ e])
  | .fileNotFound =>
      ([], ["Error: The file at " ++ pdf_path ++ " was not found."])
  | .otherError e =>
      ([], ["An unexpected error occurred: " ++ e])

/-- One character of Python's `html.escape(s)` (quote=True): `&`, `<`,
`>`, `"`, and the apostrophe are replaced by their entities.  The
sequential `str.replace` calls of the CPython implementation are
equivalent to this character-wise map because `&` is replaced first. -/
def escapeChar (c : Char) : String :=
  if c = '&' then "&amp;"
  else if c = '<' then "&lt;"
  else if c = '>' then "&gt;"
  else if c = '"' then "&quot;"
  else if c = Char.ofNat 39 then "&#x27;"
  else String.singleton c

/-- Python `html.escape` with its default `quote=True`. -/
def htmlEscape (s : String) : String :=
  s.toList.foldl (fun acc c => acc ++ escapeChar c) ""

/-- Python's builtin `max` over an iterable of integers: raises
`ValueError` (here `none`) on an empty iterable. -/
def maxOrErr : List Int → Option Int
  | [] => none
  | x :: xs => some (xs.foldl max x)

/-- The fixed header lines of `save_to_html` (ocr9.py / OCR9.py):
the opening tag and the style block. -/
def htmlHeader : List String :=
  ["<html><head><meta charset=\x27utf-8\x27><title>PDF Extraction</title></head><body>",
   "<style>",
   "body \x7b font-family: Arial, sans-serif; margin: 0; padding: 20px; background-color: #f0f0f0; \x7d",
   ".page \x7b position: relative; margin: 20px auto; background-color: #fff; border: 1px solid #ccc; box-shadow: 0 0 10px rgba(0,0,0,0.1); padding: 50px; box-sizing: border-box; \x7d",
   ".text-element \x7b position: absolute; font-size: 12px; white-space: pre-wrap; margin: 0; padding: 0; \x7d",
   "</style>"]

/-- The opening page `div` of `save_to_html`, with the computed canvas
width and height. -/
def pageDivLine (max_x max_y : Int) : String :=
  "<div class=\"page\" style=\"width: " ++ toString max_x
    ++ "px; height: " ++ toString max_y ++ "px;\">"

/-- The `<p>` line `save_to_html` emits for one element: escaped text,
absolutely positioned by its bounding box (the source builds `style`
by string concatenation, so there is no space before `width:` and
`height:`). -/
def renderElement (element : Element) : String :=
  "<p class=\"text-element\" style=\"left: " ++ toString element.x0
    ++ "px; top: " ++ toString element.y0
    ++ "px;width: " ++ toString (element.x1 - element.x0)
    ++ "px;height: " ++ toString (element.y1 - element.y0)
    ++ "px;\">" ++ htmlEscape element.text ++ "</p>"

/-- The page loop of `save_to_html` (ocr9.py / OCR9.py): pages with an
empty element list are skipped (`continue`); otherwise the canvas is
sized by Python `max` over the elements' `x1` / `y1` (`none` models
the `ValueError` such a `max` would raise on an empty list). -/
def renderPages : List (Nat × List Element) → Option (List String)
  | [] => some []
  | (_page_num, elements) :: rest =>
      if elements = [] then renderPages rest
      else
        match maxOrErr (elements.map Element.x1),
              maxOrErr (elements.map Element.y1) with
        | some max_x, some max_y =>
            match renderPages rest with
            | some restLines =>
                some (pageDivLine max_x max_y
                  :: (elements.map renderElement ++ ["</div>"] ++ restLines))
            | none => none
        | _, _ => none

/-- `PDFExtractor.save_to_html` (ocr9.py / OCR9.py), modelled as the
list of lines joined into the output file: header, page divs, closing
tags. -/
def save_to_html (data : List (Nat × List Element)) : Option (List String) :=
  match renderPages data with
  | some body => some (htmlHeader ++ body ++ ["</body></html>"])
  | none => none

/-- `MainResult`: how `main` terminates — early return on a missing
file, early return on an empty extraction, a save in the chosen
format, or the invalid-format message.  Only the `saved` outcome
writes an output file. -/
inductive MainResult where
  | missingFile
  | noData
  | saved (fmt : String)
  | invalidFormat
deriving Repr, DecidableEq

/-- Whether a `main` outcome wrote an output file. -/
def mainWrites : MainResult → Bool
  | .saved _ => true
  | _ => false

/-- `main` (ocr9.py / OCR9.py): check `os.path.exists`, run both
extractions, return early when the layout extraction is empty, then
dispatch on the chosen format.  Returns the outcome and the printed
log (the save-confirmation prints of the serializers are outside this
model's scope). -/
def mainRun (pdf_path : String) (pathExists : Bool) (pdf : PdfOpenResult)
    (output_format : String) : MainResult × List String :=
  if pathExists = false then
    (.missingFile,
      ["Error: The file \x27" ++ pdf_path ++ "\x27 does not exist."])
  else
    let log1 := (extract_data_layout_preserved pdf_path pdf).2
    let log2 := (extract_elements_for_html pdf_path pdf).2
    if (extract_data_layout_preserved pdf_path pdf).1 = [] then
      (.noData, log1 ++ log2 ++ ["No data was extracted. Exiting."])
    else if output_format = "docx" then (.saved "docx", log1 ++ log2)
    else if output_format = "txt" then (.saved "txt", log1 ++ log2)
    else if output_format = "html" then (.saved "html", log1 ++ log2)
    else
      (.invalidFormat, log1 ++ log2
        ++ ["Invalid output format chosen. Supported formats are: docx, txt, html."])

end PDFExtractor

namespace OCR8

/-- Python `content.encode('latin-1', 'replace').decode('latin-1')`
from OCR8.py's `save_to_html`: characters above U+00FF become `?`,
everything else is unchanged. -/
def latin1Replace (s : String) : String :=
  String.mk (s.toList.map (fun c => if c.toNat ≤ 255 then c else Char.ofNat 63))

/-- `PDFExtractor.save_to_html` of OCR8.py, modelled as the sequence
of text payloads written into the FPDF object: for each page a
`pdf.write` of a literal heading string followed by a `pdf.multi_cell`
of the latin-1-replaced page content.  (The FPDF binary serialization
itself is outside the model; only the embedded text flow matters.) -/
def save_to_html_payloads (data : List (Nat × String)) : List String :=
  (data.map (fun pc =>
    ["<h1>Page " ++ toString pc.1 ++ "</h1>", latin1Replace pc.2])).flatten

end OCR8

open PDFExtractor

/-- Position `i` of the accumulated dict of the text-extraction page
loop holds page `i`'s number paired with its dispatched text. -/
theorem extractLoop_fst_getElem (pages : List Page) :
    ∀ (i : Nat) (page : Page), pages[i]? = some page →
      (extractLoop pages).1[i]? =
        some (page.page_number, (dispatchPage page).1) := by
  induction pages with
  | nil =>
      intro i page hi
      simp at hi
  | cons p rest ih =>
      intro i page hi
      cases i with
      | zero =>
          simp only [List.getElem?_cons_zero, Option.some.injEq] at hi
          subst hi
          simp [extractLoop]
      | succ n =>
          simp only [List.getElem?_cons_succ] at hi
          simpa [extractLoop] using ih n page hi

/-- Claim C1: a page whose pdfplumber extraction is non-empty has that
structured text recorded as its result by both text dispatchers, and
the OCR engine is not invoked for it (the instrumentation flag of
`dispatchPage` stays `false`). -/
theorem plumber_text_recorded_no_ocr (pdf_path : String) (pages : List Page)
    (page : Page) (i : Nat) (hi : pages[i]? = some page)
    (hne : (_extract_with_plumber page).1 ≠ "") :
    (dispatchPage page).2.1 = false ∧
    (extract_data pdf_path (.ok pages)).1[i]? =
      some (page.page_number, (_extract_with_plumber page).1) ∧
    (extract_data_layout_preserved pdf_path (.ok pages)).1[i]? =
      some (page.page_number, (_extract_with_plumber page).1) := by
  have hd : dispatchPage page =
      ((_extract_with_plumber page).1, false, (_extract_with_plumber page).2) := by
    unfold dispatchPage
    rw [if_pos hne]
  refine ⟨by rw [hd], ?_, ?_⟩ <;>
    simpa [extract_data, extract_data_layout_preserved, hd] using
      extractLoop_fst_getElem pages i page hi

/-- Witness for C1 on a concrete one-page document with structured
text `"hello"`. -/
theorem plumber_text_recorded_no_ocr_witness :
    (dispatchPage ⟨1, .ok (some "hello"), .ok "ocr", .ok [], .ok []⟩).2.1 = false ∧
    (extract_data "doc.pdf"
        (.ok [⟨1, .ok (some "hello"), .ok "ocr", .ok [], .ok []⟩])).1[0]? =
      some (1, "hello") ∧
    (extract_data_layout_preserved "doc.pdf"
        (.ok [⟨1, .ok (some "hello"), .ok "ocr", .ok [], .ok []⟩])).1[0]? =
      some (1, "hello") :=
  plumber_text_recorded_no_ocr "doc.pdf"
    [⟨1, .ok (some "hello"), .ok "ocr", .ok [], .ok []⟩]
    ⟨1, .ok (some "hello"), .ok "ocr", .ok [], .ok []⟩ 0 rfl (by decide)

/-- Claim C2: a page whose pdfplumber extraction is empty has the OCR
output recorded as its result (the OCR engine is invoked), whatever
that output is — including the empty string. -/
theorem ocr_recorded_when_plumber_empty (pdf_path : String) (pages : List Page)
    (page : Page) (i : Nat) (hi : pages[i]? = some page)
    (hemp : (_extract_with_plumber page).1 = "") :
    (dispatchPage page).2.1 = true ∧
    (extract_data pdf_path (.ok pages)).1[i]? =
      some (page.page_number, (_extract_with_ocr page).1) ∧
    (extract_data_layout_preserved pdf_path (.ok pages)).1[i]? =
      some (page.page_number, (_extract_with_ocr page).1) := by
  have hd : dispatchPage page =
      ((_extract_with_ocr page).1, true,
        (_extract_with_plumber page).2 ++ (_extract_with_ocr page).2) := by
    unfold dispatchPage
    rw [if_neg (by simpa using hemp)]
  refine ⟨by rw [hd], ?_, ?_⟩ <;>
    simpa [extract_data, extract_data_layout_preserved, hd] using
      extractLoop_fst_getElem pages i page hi

/-- Witness for C2 on a concrete one-page document with no structured
text whose OCR output is itself empty: the recorded result is `""`. -/
theorem ocr_recorded_when_plumber_empty_witness :
    (dispatchPage ⟨1, .ok none, .ok "", .ok [], .ok []⟩).2.1 = true ∧
    (extract_data "doc.pdf"
        (.ok [⟨1, .ok none, .ok "", .ok [], .ok []⟩])).1[0]? =
      some (1, "") ∧
    (extract_data_layout_preserved "doc.pdf"
        (.ok [⟨1, .ok none, .ok "", .ok [], .ok []⟩])).1[0]? =
      some (1, "") :=
  ocr_recorded_when_plumber_empty "doc.pdf"
    [⟨1, .ok none, .ok "", .ok [], .ok []⟩]
    ⟨1, .ok none, .ok "", .ok [], .ok []⟩ 0 rfl rfl

/-- Claim C3: when opening the PDF raises `FileNotFoundError`, all
three extraction entry points return the empty mapping; each entry
point is a total function into a pure result type, so no exception
escapes to the caller. -/
theorem missing_file_empty_mapping (pdf_path : String) :
    (extract_data pdf_path .fileNotFound).1 = [] ∧
    (extract_data_layout_preserved pdf_path .fileNotFound).1 = [] ∧
    (extract_elements_for_html pdf_path .fileNotFound).1 = [] :=
  ⟨rfl, rfl, rfl⟩

/-- Claim C5: the OCR fallback of `extract_elements_for_html` keeps a
recognized word exactly when its stripped text is non-empty and its
reported confidence exceeds 50, and records each kept word with
bounding box `(x, y, x+w, y+h)` (a confidence reported as the sentinel
`-1` is read as `0`, which is equally rejected by the threshold). -/
theorem ocr_confidence_filter (rows : List OcrWord) :
    ocrElements rows =
      (rows.filter (fun row =>
        decide (pyStrip row.text ≠ "" ∧ 50 < row.conf))).map
        (fun row => ⟨pyStrip row.text, row.left, row.top,
          row.left + row.width, row.top + row.height, "ocr"⟩) := by
  induction rows with
  | nil => rfl
  | cons row rest ih =>
      have hconf : ((if row.conf ≠ -1 then row.conf else 0) > 50) = (50 < row.conf) := by
        by_cases h : row.conf = -1
        · rw [h]
          norm_num
        · simp [h]
      rw [ocrElements] at ih ⊢
      rw [List.filterMap_cons, List.filter_cons]
      by_cases hk : pyStrip row.text ≠ "" ∧ 50 < row.conf
      · rw [if_pos (by rw [hconf]; exact hk), if_pos (by simpa using hk)]
        simpa using ih
      · rw [if_neg (by rw [hconf]; exact hk), if_neg (by simpa using hk)]
        exact ih

/-- Claim C7: every failure mode is caught, logged with the source's
message, and degrades — a per-page extraction exception or the missing
OCR engine to the empty string for that page, a document-level
exception to the empty mapping; each function is total into a pure
result type, so nothing propagates to the caller. -/
theorem failures_logged_and_degrade (page : Page) (pages : List Page)
    (e pdf_path : String) :
    (page.plumberText = .error e →
      _extract_with_plumber page =
        ("", ["Error extracting with pdfplumber on page "
              ++ toString page.page_number ++ ": " ++ e])) ∧
    (page.ocrText = .tesseractNotFound →
      _extract_with_ocr page =
        ("", ["Tesseract is not installed or not in your PATH. Please install it."])) ∧
    (page.ocrText = .err e →
      _extract_with_ocr page =
        ("", ["Error extracting with OCR on page "
              ++ toString page.page_number ++ ": " ++ e])) ∧
    (extract_data pdf_path .fileNotFound =
      ([], ["Error: The file at " ++ pdf_path ++ " was not found."])) ∧
    (extract_data pdf_path (.otherError e) =
      ([], ["An unexpected error occurred: " ++ e])) ∧
    (extract_data_layout_preserved pdf_path .fileNotFound =
      ([], ["Error: The file at " ++ pdf_path ++ " was not found."])) ∧
    (extract_data_layout_preserved pdf_path (.otherError e) =
      ([], ["An unexpected error occurred: " ++ e])) ∧
    (extract_elements_for_html pdf_path .fileNotFound =
      ([], ["Error: The file at " ++ pdf_path ++ " was not found."])) ∧
    (extract_elements_for_html pdf_path (.otherError e) =
      ([], ["An unexpected error occurred: " ++ e])) ∧
    (elementsLoop pages = .error e →
      extract_elements_for_html pdf_path (.ok pages) =
        ([], ["An unexpected error occurred: " ++ e])) := by
  refine ⟨?_, ?_, ?_, rfl, rfl, rfl, rfl, rfl, rfl, ?_⟩
  · intro h
    simp [_extract_with_plumber, h]
  · intro h
    simp [_extract_with_ocr, h]
  · intro h
    simp [_extract_with_ocr, h]
  · intro h
    simp [extract_elements_for_html, h]

/-- Witness for C7 at concrete failing pages: a pdfplumber exception,
an OCR exception, the Tesseract-missing error, a missing file, and a
per-page failure inside the element extraction. -/
theorem failures_logged_and_degrade_witness :
    _extract_with_plumber ⟨2, .error "boom", .err "boom", .ok [], .ok []⟩ =
      ("", ["Error extracting with pdfplumber on page 2: boom"]) ∧
    _extract_with_ocr ⟨2, .error "boom", .err "boom", .ok [], .ok []⟩ =
      ("", ["Error extracting with OCR on page 2: boom"]) ∧
    _extract_with_ocr ⟨3, .ok none, .tesseractNotFound, .ok [], .ok []⟩ =
      ("", ["Tesseract is not installed or not in your PATH. Please install it."]) ∧
    extract_data "doc.pdf" .fileNotFound =
      ([], ["Error: The file at doc.pdf was not found."]) ∧
    extract_elements_for_html "doc.pdf"
        (.ok [⟨4, .ok none, .ok "", .error "ocr fail", .error "ocr fail"⟩]) =
      ([], ["An unexpected error occurred: ocr fail"]) := by
  refine ⟨?_, ?_, ?_, ?_, ?_⟩
  · exact (failures_logged_and_degrade
      ⟨2, .error "boom", .err "boom", .ok [], .ok []⟩ [] "boom" "doc.pdf").1 rfl
  · exact (failures_logged_and_degrade
      ⟨2, .error "boom", .err "boom", .ok [], .ok []⟩ [] "boom" "doc.pdf").2.2.1 rfl
  · exact (failures_logged_and_degrade
      ⟨3, .ok none, .tesseractNotFound, .ok [], .ok []⟩ [] "x" "doc.pdf").2.1 rfl
  · exact (failures_logged_and_degrade
      ⟨3, .ok none, .tesseractNotFound, .ok [], .ok []⟩ [] "x" "doc.pdf").2.2.2.1
  · exact (failures_logged_and_degrade
      ⟨3, .ok none, .tesseractNotFound, .ok [], .ok []⟩
      [⟨4, .ok none, .ok "", .error "ocr fail", .error "ocr fail"⟩]
      "ocr fail" "doc.pdf").2.2.2.2.2.2.2.2.2 rfl

/-- Claim C8: `main` returns early with a diagnostic and without
writing any output file when the path does not exist or when the
extraction comes back empty. -/
theorem main_early_return_on_missing_or_empty (pdf_path output_format : String)
    (pdf : PdfOpenResult) :
    (mainRun pdf_path false pdf output_format =
      (.missingFile,
        ["Error: The file \x27" ++ pdf_path ++ "\x27 does not exist."])) ∧
    mainWrites .missingFile = false ∧
    ((extract_data_layout_preserved pdf_path pdf).1 = [] →
      (mainRun pdf_path true pdf output_format).1 = .noData ∧
      mainWrites (mainRun pdf_path true pdf output_format).1 = false ∧
      "No data was extracted. Exiting." ∈
        (mainRun pdf_path true pdf output_format).2) := by
  refine ⟨rfl, rfl, ?_⟩
  intro h
  simp [mainRun, h, mainWrites]

/-- Witness for C8: a missing file and (separately) a run whose
extraction is empty, at concrete inputs. -/
theorem main_early_return_on_missing_or_empty_witness :
    (mainRun "doc.pdf" false .fileNotFound "txt" =
      (.missingFile, ["Error: The file \x27doc.pdf\x27 does not exist."])) ∧
    (mainRun "doc.pdf" true .fileNotFound "txt").1 = .noData ∧
    mainWrites (mainRun "doc.pdf" true .fileNotFound "txt").1 = false ∧
    "No data was extracted. Exiting." ∈
      (mainRun "doc.pdf" true .fileNotFound "txt").2 := by
  refine ⟨(main_early_return_on_missing_or_empty "doc.pdf" "txt" .fileNotFound).1, ?_⟩
  exact (main_early_return_on_missing_or_empty "doc.pdf" "txt" .fileNotFound).2.2 rfl

/-- The accumulated dict of the text-extraction loop has exactly the
pages' numbers as keys, in document order. -/
theorem extractLoop_map_fst (pages : List Page) :
    (extractLoop pages).1.map Prod.fst = pages.map Page.page_number := by
  induction pages with
  | nil => rfl
  | cons p rest ih => simp [extractLoop, ih]

/-- The accumulated dict of the element-extraction loop, when the loop
completes, has exactly the pages' numbers as keys, in document
order. -/
theorem elementsLoop_map_fst (pages : List Page) :
    ∀ res, elementsLoop pages = .ok res →
      res.map Prod.fst = pages.map Page.page_number := by
  induction pages with
  | nil =>
      intro res h
      simp only [elementsLoop] at h
      injection h with h
      subst h
      rfl
  | cons p rest ih =>
      intro res h
      simp only [elementsLoop] at h
      cases hp : pageElements p <;> rw [hp] at h
      · exact absurd h (by simp)
      · cases hr : elementsLoop rest <;> rw [hr] at h
        · exact absurd h (by simp)
        · injection h with h
          subst h
          simpa using ih _ hr

/-- Claim C9: on a successful run every extraction entry point returns
one entry per page of the document, keyed by that page's number, in
sequential document order. -/
theorem one_entry_per_page_in_order (pdf_path : String) (pages : List Page)
    (res : List (Nat × List Element)) :
    ((extract_data pdf_path (.ok pages)).1.map Prod.fst =
      pages.map Page.page_number) ∧
    ((extract_data_layout_preserved pdf_path (.ok pages)).1.map Prod.fst =
      pages.map Page.page_number) ∧
    (elementsLoop pages = .ok res →
      (extract_elements_for_html pdf_path (.ok pages)).1.map Prod.fst =
        pages.map Page.page_number) := by
  refine ⟨extractLoop_map_fst pages, extractLoop_map_fst pages, ?_⟩
  intro h
  have := elementsLoop_map_fst pages res h
  simpa [extract_elements_for_html, h] using this

/-- Witness for C9 on a concrete two-page document (one page with
structured words, one falling back to OCR elements). -/
theorem one_entry_per_page_in_order_witness :
    ((extract_data "doc.pdf"
        (.ok [⟨1, .ok (some "t"), .ok "", .ok [⟨"w", 0, 5, 1, 6⟩], .ok []⟩,
              ⟨2, .ok none, .ok "", .ok [], .ok [⟨"v", 80, 0, 0, 2, 3⟩]⟩])).1.map
      Prod.fst = [1, 2]) ∧
    ((extract_elements_for_html "doc.pdf"
        (.ok [⟨1, .ok (some "t"), .ok "", .ok [⟨"w", 0, 5, 1, 6⟩], .ok []⟩,
              ⟨2, .ok none, .ok "", .ok [], .ok [⟨"v", 80, 0, 0, 2, 3⟩]⟩])).1.map
      Prod.fst = [1, 2]) := by
  refine ⟨(one_entry_per_page_in_order "doc.pdf" _
    [(1, [⟨"w", 0, 1, 5, 6, "plumber"⟩]), (2, [⟨"v", 0, 0, 2, 3, "ocr"⟩])]).1, ?_⟩
  exact (one_entry_per_page_in_order "doc.pdf"
    [⟨1, .ok (some "t"), .ok "", .ok [⟨"w", 0, 5, 1, 6⟩], .ok []⟩,
     ⟨2, .ok none, .ok "", .ok [], .ok [⟨"v", 80, 0, 0, 2, 3⟩]⟩]
    [(1, [⟨"w", 0, 1, 5, 6, "plumber"⟩]), (2, [⟨"v", 0, 0, 2, 3, "ocr"⟩])]).2.2
    rfl

/-- The seed of a left fold by `max` is bounded by the fold. -/
theorem le_foldl_max (l : List Int) (a : Int) : a ≤ l.foldl max a := by
  induction l generalizing a with
  | nil => exact le_refl a
  | cons b t ih => exact le_trans (le_max_left a b) (ih (max a b))

/-- Every list member is bounded by a left fold by `max`. -/
theorem mem_le_foldl_max (l : List Int) (a : Int) :
    ∀ x ∈ l, x ≤ l.foldl max a := by
  induction l generalizing a with
  | nil =>
      intro x hx
      cases hx
  | cons b t ih =>
      intro x hx
      rcases List.mem_cons.mp hx with rfl | hx
      · exact le_trans (le_max_right a x) (le_foldl_max t (max a x))
      · exact ih (max a b) x hx

/-- A left fold by `max` is the seed or a list member. -/
theorem foldl_max_mem (l : List Int) (a : Int) :
    l.foldl max a = a ∨ l.foldl max a ∈ l := by
  induction l generalizing a with
  | nil => exact Or.inl rfl
  | cons b t ih =>
      rcases ih (max a b) with h | h
      · rcases max_cases a b with ⟨he, _⟩ | ⟨he, _⟩
        · exact Or.inl (by rw [List.foldl_cons, h, he])
        · exact Or.inr (by rw [List.foldl_cons, h, he]; exact List.mem_cons_self b t)
      · exact Or.inr (List.mem_cons_of_mem b h)

/-- Python `max` on a non-empty list of integers returns an element
that bounds the whole list. -/
theorem maxOrErr_spec :
    ∀ (l : List Int), l ≠ [] →
      ∃ m, maxOrErr l = some m ∧ m ∈ l ∧ ∀ y ∈ l, y ≤ m
  | [], h => absurd rfl h
  | x :: xs, _ => by
      refine ⟨xs.foldl max x, rfl, ?_, ?_⟩
      · rcases foldl_max_mem xs x with h | h
        · rw [h]
          exact List.mem_cons_self x xs
        · exact List.mem_cons_of_mem x h
      · intro y hy
        rcases List.mem_cons.mp hy with rfl | hy
        · exact le_foldl_max xs y
        · exact mem_le_foldl_max xs x y hy

/-- Unfolding equation for the page loop of `save_to_html`. -/
theorem renderPages_cons (p : Nat) (elements : List Element)
    (rest : List (Nat × List Element)) :
    renderPages ((p, elements) :: rest) =
      if elements = [] then renderPages rest
      else
        match maxOrErr (elements.map Element.x1),
              maxOrErr (elements.map Element.y1) with
        | some max_x, some max_y =>
            match renderPages rest with
            | some restLines =>
                some (pageDivLine max_x max_y
                  :: (elements.map renderElement ++ ["</div>"] ++ restLines))
            | none => none
        | _, _ => none := rfl

/-- The page loop of `save_to_html` never takes the `ValueError`
branch: it always returns a line list. -/
theorem renderPages_some (data : List (Nat × List Element)) :
    ∃ lines, renderPages data = some lines := by
  induction data with
  | nil => exact ⟨[], rfl⟩
  | cons pc rest ih =>
      obtain ⟨lines, hl⟩ := ih
      obtain ⟨p, elements⟩ := pc
      by_cases he : elements = []
      · exact ⟨lines, by rw [renderPages_cons, if_pos he, hl]⟩
      · obtain ⟨mx, hmx, -, -⟩ :=
          maxOrErr_spec (elements.map Element.x1) (by simpa using he)
        obtain ⟨my, hmy, -, -⟩ :=
          maxOrErr_spec (elements.map Element.y1) (by simpa using he)
        exact ⟨pageDivLine mx my
            :: (elements.map renderElement ++ ["</div>"] ++ lines),
          by rw [renderPages_cons, if_neg he, hmx, hmy, hl]⟩

/-- For every page with a non-empty element list that the data
contains, the page-loop output contains its page `div` (with the two
computed maxima) and the rendered line of each of its elements. -/
theorem renderPages_block (data : List (Nat × List Element)) (p : Nat)
    (elems : List Element) :
    (p, elems) ∈ data → elems ≠ [] →
    ∀ lines, renderPages data = some lines →
      (∃ mx my, maxOrErr (elems.map Element.x1) = some mx ∧
        maxOrErr (elems.map Element.y1) = some my ∧
        pageDivLine mx my ∈ lines) ∧
      ∀ e ∈ elems, renderElement e ∈ lines := by
  induction data with
  | nil =>
      intro h
      cases h
  | cons pc rest ih =>
      intro hmem hne lines hl
      obtain ⟨p', elems'⟩ := pc
      obtain ⟨restLines, hrest⟩ := renderPages_some rest
      rcases List.mem_cons.mp hmem with heq | hmem'
      · obtain ⟨rfl, rfl⟩ := Prod.mk.injEq .. ▸ heq
        obtain ⟨mx, hmx, -, -⟩ :=
          maxOrErr_spec (elems.map Element.x1) (by simpa using hne)
        obtain ⟨my, hmy, -, -⟩ :=
          maxOrErr_spec (elems.map Element.y1) (by simpa using hne)
        rw [renderPages_cons, if_neg hne, hmx, hmy, hrest] at hl
        injection hl with hl
        subst hl
        refine ⟨⟨mx, my, hmx, hmy, List.mem_cons_self _ _⟩, ?_⟩
        intro e he
        exact List.mem_cons_of_mem _
          (List.mem_append_left _ (List.mem_append_left _ (List.mem_map_of_mem _ he)))
      · by_cases he' : elems' = []
        · rw [renderPages_cons, if_pos he'] at hl
          exact ih hmem' hne lines hl
        · obtain ⟨mx', hmx', -, -⟩ :=
            maxOrErr_spec (elems'.map Element.x1) (by simpa using he')
          obtain ⟨my', hmy', -, -⟩ :=
            maxOrErr_spec (elems'.map Element.y1) (by simpa using he')
          rw [renderPages_cons, if_neg he', hmx', hmy', hrest] at hl
          injection hl with hl
          subst hl
          obtain ⟨⟨mx, my, hmx, hmy, hdiv⟩, helems⟩ := ih hmem' hne restLines hrest
          refine ⟨⟨mx, my, hmx, hmy, ?_⟩, ?_⟩
          · exact List.mem_cons_of_mem _ (List.mem_append_right _ hdiv)
          · intro e he
            exact List.mem_cons_of_mem _ (List.mem_append_right _ (helems e he))

/-- Claim C4: for every page of the input with a non-empty element
list, the emitted page `div` is sized exactly to the maximum
bounding-box extent among the page's elements: its width is the
maximum of the elements' `x1` and its height the maximum of their
`y1`. -/
theorem page_div_sized_to_max_extent (data : List (Nat × List Element))
    (p : Nat) (elems : List Element) (hmem : (p, elems) ∈ data)
    (hne : elems ≠ []) :
    ∃ lines mx my, save_to_html data = some lines ∧
      pageDivLine mx my ∈ lines ∧
      mx ∈ elems.map Element.x1 ∧ (∀ x ∈ elems.map Element.x1, x ≤ mx) ∧
      my ∈ elems.map Element.y1 ∧ (∀ y ∈ elems.map Element.y1, y ≤ my) := by
  obtain ⟨body, hbody⟩ := renderPages_some data
  obtain ⟨⟨mx, my, hmx, hmy, hdiv⟩, -⟩ :=
    renderPages_block data p elems hmem hne body hbody
  obtain ⟨m, hm, hmMem, hmLe⟩ :=
    maxOrErr_spec (elems.map Element.x1) (by simpa using hne)
  obtain ⟨n, hn, hnMem, hnLe⟩ :=
    maxOrErr_spec (elems.map Element.y1) (by simpa using hne)
  rw [hm] at hmx
  rw [hn] at hmy
  injection hmx with hmx
  injection hmy with hmy
  subst hmx
  subst hmy
  refine ⟨htmlHeader ++ body ++ ["</body></html>"], m, n, ?_, ?_, hmMem, hmLe,
    hnMem, hnLe⟩
  · rw [save_to_html, hbody]
  · exact List.mem_append_left _ (List.mem_append_right _ hdiv)

/-- Witness for C4 on a concrete page of two elements with extents 7
and 9. -/
theorem page_div_sized_to_max_extent_witness :
    ∃ lines mx my,
      save_to_html [(1, [⟨"a", 0, 0, 7, 4, "plumber"⟩, ⟨"b", 1, 2, 5, 9, "plumber"⟩])] =
        some lines ∧
      pageDivLine mx my ∈ lines ∧
      mx ∈ [⟨"a", 0, 0, 7, 4, "plumber"⟩,
            (⟨"b", 1, 2, 5, 9, "plumber"⟩ : Element)].map Element.x1 ∧
      (∀ x ∈ [⟨"a", 0, 0, 7, 4, "plumber"⟩,
              (⟨"b", 1, 2, 5, 9, "plumber"⟩ : Element)].map Element.x1, x ≤ mx) ∧
      my ∈ [⟨"a", 0, 0, 7, 4, "plumber"⟩,
            (⟨"b", 1, 2, 5, 9, "plumber"⟩ : Element)].map Element.y1 ∧
      (∀ y ∈ [⟨"a", 0, 0, 7, 4, "plumber"⟩,
              (⟨"b", 1, 2, 5, 9, "plumber"⟩ : Element)].map Element.y1, y ≤ my) :=
  page_div_sized_to_max_extent
    [(1, [⟨"a", 0, 0, 7, 4, "plumber"⟩, ⟨"b", 1, 2, 5, 9, "plumber"⟩])] 1
    [⟨"a", 0, 0, 7, 4, "plumber"⟩, ⟨"b", 1, 2, 5, 9, "plumber"⟩]
    (List.mem_cons_self _ _) (by decide)

/-- Claim C6 counterexample: the claim is false of OCR8.py, whose
`save_to_html` writes the page text into an FPDF object with no HTML
escaping (and no positioned markup at all): on the mapping
`{1: "<b>"}` the embedded payload is the raw `"<b>"`, not its HTML
escape. -/
theorem ocr8_save_to_html_unescaped :
    OCR8.save_to_html_payloads [(1, "<b>")] = ["<h1>Page 1</h1>", "<b>"] ∧
    htmlEscape "<b>" = "&lt;b&gt;" ∧
    ∀ s ∈ OCR8.save_to_html_payloads [(1, "<b>")], s ≠ htmlEscape "<b>" :=
  ⟨rfl, rfl, by decide⟩

/-- Claim C6 (amended to the element-based serializer of ocr9.py /
OCR9.py): `save_to_html` renders every element of every page of its
input as a `<p>` absolutely positioned with `left = x0`, `top = y0`,
`width = x1 - x0`, `height = y1 - y0`, with its text HTML-escaped
before embedding. -/
theorem element_positioned_and_escaped (data : List (Nat × List Element))
    (p : Nat) (elems : List Element) (e : Element)
    (hmem : (p, elems) ∈ data) (he : e ∈ elems) :
    ∃ lines, save_to_html data = some lines ∧
      ("<p class=\"text-element\" style=\"left: " ++ toString e.x0
        ++ "px; top: " ++ toString e.y0
        ++ "px;width: " ++ toString (e.x1 - e.x0)
        ++ "px;height: " ++ toString (e.y1 - e.y0)
        ++ "px;\">" ++ htmlEscape e.text ++ "</p>") ∈ lines := by
  have hne : elems ≠ [] := List.ne_nil_of_mem he
  obtain ⟨body, hbody⟩ := renderPages_some data
  obtain ⟨-, helems⟩ := renderPages_block data p elems hmem hne body hbody
  refine ⟨htmlHeader ++ body ++ ["</body></html>"], by rw [save_to_html, hbody], ?_⟩
  exact List.mem_append_left _ (List.mem_append_right _ (helems e he))

/-- Witness for the amended C6 on a concrete element whose text needs
escaping. -/
theorem element_positioned_and_escaped_witness :
    ∃ lines,
      save_to_html [(1, [⟨"a<b", 1, 2, 4, 9, "plumber"⟩])] = some lines ∧
      ("<p class=\"text-element\" style=\"left: "
        ++ toString (1 : Int) ++ "px; top: " ++ toString (2 : Int)
        ++ "px;width: " ++ toString ((4 : Int) - 1)
        ++ "px;height: " ++ toString ((9 : Int) - 2)
        ++ "px;\">" ++ htmlEscape "a<b" ++ "</p>") ∈ lines :=
  element_positioned_and_escaped [(1, [⟨"a<b", 1, 2, 4, 9, "plumber"⟩])] 1
    [⟨"a<b", 1, 2, 4, 9, "plumber"⟩] ⟨"a<b", 1, 2, 4, 9, "plumber"⟩
    (List.mem_cons_self _ _) (List.mem_cons_self _ _)

/-- Filtering out the pages with an empty element list does not change
the output of the page loop of `save_to_html`. -/
theorem renderPages_filter (data : List (Nat × List Element)) :
    renderPages (data.filter (fun pc => decide (pc.2 ≠ []))) = renderPages data := by
  induction data with
  | nil => rfl
  | cons pc rest ih =>
      obtain ⟨p, elems⟩ := pc
      by_cases he : elems = []
      · subst he
        simpa [List.filter_cons, renderPages_cons] using ih
      · have ih' : renderPages
            (List.filter (fun pc => !decide (pc.2 = [])) rest) = renderPages rest := by
          simpa using ih
        simp [List.filter_cons, he, renderPages_cons, ih']

/-- Claim C10: `save_to_html` emits nothing for a page with an empty
element list (its output is unchanged by removing those pages), and
its page loop is total — the empty-`max` (`ValueError`) branch is
never taken. -/
theorem empty_pages_skipped_and_max_total (data : List (Nat × List Element)) :
    (∃ lines, save_to_html data = some lines) ∧
    save_to_html data =
      save_to_html (data.filter (fun pc => decide (pc.2 ≠ []))) := by
  constructor
  · obtain ⟨body, hbody⟩ := renderPages_some data
    exact ⟨_, by rw [save_to_html, hbody]⟩
  · rw [save_to_html, save_to_html, renderPages_filter]
